import Mathlib

/-!
Verification development for the homehub-training-platform repository.

The repository contains three overlapping Express server variants:

* `src/unnamed/part_000` — the full development server: SQLite tables
  `users`, `user_progress`, `modules`, authentication routes, a database-backed
  `GET /api/modules` handler, a static in-memory module catalog, and progress
  routes.  Modelled in namespace `P0`.
* `src/backend/server-production.js` — production server with only the `users`
  table and the authentication routes.  Modelled in namespace `Prod`.
* `src/frontend/js/app-with-learning.js` (second half) — the Railway variant:
  hardened `user_progress` schema, login with `req.session.regenerate`, logout
  with `res.clearCookie`.  Modelled in namespace `Railway`.

bcrypt hashing is an external oracle; it is passed in as a `Crypto` record of a
hash function and a compare function.  HTTP middleware that does not change
request semantics (CORS, body parsing, logging, `express.static` for non-API
paths) is not modelled.  The express-session store is modelled as a list of
(session id, session data) pairs with a fresh-id counter.
-/

/-- A row of the `users` table (both variants create the same schema:
id, username UNIQUE, email UNIQUE, password_hash, created_at).  The
`created_at` column is never read by any handler and is omitted. -/
structure UserRow where
  id : Nat
  username : String
  email : String
  password_hash : String
deriving Repr, DecidableEq

/-- The bcrypt oracle: `hash` is `bcrypt.hash(p, 10)`, `verify` is
`bcrypt.compare(p, h)`.  The handlers only ever call these two functions. -/
structure Crypto where
  hash : String → String
  verify : String → String → Bool

/-- A row of the `modules` database table of part_000
(id, title, description, content, order_index). -/
structure ModuleRow where
  id : Nat
  title : String
  description : String
  content : String
  order_index : Int
deriving Repr, DecidableEq

/-- A row of the part_000 `user_progress` table.  Its columns are exactly
id, user_id, module_id, completed, last_accessed — there is no `score` and no
`time_spent` column, and no UNIQUE constraint on (user_id, module_id). -/
structure ProgressRow where
  id : Nat
  user_id : Nat
  module_id : Int
  completed : Bool
  last_accessed : Nat
deriving Repr, DecidableEq

/-- A concept entry of the static catalog (`title`, `explanation`, `example`,
`analogy`).  The JS field `example` is a Lean keyword and is renamed
`exampleCode`. -/
structure CatalogConcept where
  title : String
  explanation : String
  exampleCode : String
  analogy : String
deriving Repr, DecidableEq

/-- An exercise entry of the static catalog. -/
structure Exercise where
  title : String
  description : String
  starter_code : String
  solution : String
  hints : List String
deriving Repr, DecidableEq

/-- A quiz question of the static catalog. -/
structure QuizQ where
  question : String
  options : List String
  correct : Nat
  explanation : String
deriving Repr, DecidableEq

/-- The `content` object of a static catalog module.  The second module has no
`quiz` field, hence the `Option`. -/
structure ModuleContent where
  story : String
  concepts : List CatalogConcept
  exercises : List Exercise
  quiz : Option (List QuizQ)
deriving Repr, DecidableEq

/-- A module of the static in-memory catalog defined inside the second
`GET /api/modules` handler of part_000. -/
structure CatalogModule where
  id : Nat
  title : String
  description : String
  difficulty : String
  estimated_time : String
  order_index : Nat
  content : ModuleContent
deriving Repr, DecidableEq

/-- The JSON responses the route handlers can produce.  Each constructor
corresponds to one literal `res.status(...).json(...)` / `res.json(...)` /
`res.sendFile(...)` shape in the source. -/
inductive Resp where
  /-- `res.status(s).json(\x7b error: e \x7d)`. -/
  | jsonErr (status : Nat) (error : String)
  /-- `res.json(\x7b message: m \x7d)`. -/
  | jsonMsg (message : String)
  /-- register/login success payload: message plus public user fields. -/
  | userResp (message : String) (id : Nat) (username : String) (email : String)
  /-- `GET /api/auth/me` success payload. -/
  | meResp (id : Nat) (username : String)
  /-- database-backed `GET /api/modules` payload (rows of the modules table). -/
  | modulesResp (modules : List ModuleRow)
  /-- static-catalog `GET /api/modules` payload. -/
  | staticModulesResp (modules : List CatalogModule)
  /-- `GET /api/modules/:id` payload (`\x7b module: ... \x7d`). -/
  | moduleResp (m : Option CatalogModule)
  /-- `GET /api/progress` payload: progress rows joined with module titles. -/
  | progressResp (rows : List (ProgressRow × String))
  /-- `GET /api/health` payload. -/
  | healthResp
  /-- `res.sendFile(...)`: the SPA entry document, status 200, content html. -/
  | htmlFile (name : String)
  /-- a response produced by the Express default handler (thrown error or no
  matching route), carrying only its status code. -/
  | defaultError (status : Nat)
deriving Repr, DecidableEq

/-- `db.get('SELECT * FROM users WHERE username = ?', [username])`:
the first row whose username matches. -/
def selectUserByUsername (users : List UserRow) (username : String) : Option UserRow :=
  users.find? (fun u => u.username == username)

/-- Core of the `POST /api/auth/login` handler.  This code is byte-identical in
part_000 and server-production.js and is shared by the Railway variant up to
the session regeneration, which is modelled separately.  Returns the response
together with the (user id, username) pair the handler stores into the session
on success (`none` when the handler returns before reaching the session
assignment).  JS truthiness of a request body string field is `≠ ""`
(a missing field is modelled as `""`). -/
def loginCore (c : Crypto) (users : List UserRow) (username password : String) :
    Resp × Option (Nat × String) :=
  if username == "" || password == "" then
    (.jsonErr 400 "Username and password are required", none)
  else
    match selectUserByUsername users username with
    | none => (.jsonErr 401 "Invalid username or password", none)
    | some user =>
      if c.verify password user.password_hash then
        (.userResp "Login successful!" user.id user.username user.email,
          some (user.id, user.username))
      else
        (.jsonErr 401 "Invalid username or password", none)

/-- Core of the `POST /api/auth/register` handler (identical in part_000 and
server-production.js).  `nextId` is the AUTOINCREMENT id the insert would
assign (`this.lastID`).  Returns the response together with the inserted row
(`none` when validation fails or the UNIQUE constraint on username or email is
violated, in which case the table is unchanged). -/
def registerCore (c : Crypto) (users : List UserRow) (nextId : Nat)
    (username email password : String) : Resp × Option UserRow :=
  if username == "" || email == "" || password == "" then
    (.jsonErr 400 "All fields are required", none)
  else if password.length < 6 then
    (.jsonErr 400 "Password must be at least 6 characters", none)
  else if users.any (fun u => u.username == username || u.email == email) then
    (.jsonErr 400 "Username or email already exists", none)
  else
    (.userResp "Registration successful!" nextId username email,
      some ⟨nextId, username, email, c.hash password⟩)

/-- A concrete bcrypt stand-in used for concrete evaluations: hashing appends
a marker, verification re-hashes and compares, so `verify p (hash p) = true`
and distinct passwords do not cross-verify. -/
def cDemo : Crypto :=
  ⟨fun p => p ++ "#h", fun p h => h == p ++ "#h"⟩

example : (loginCore cDemo [⟨1, "alice", "a@x", "pw#h"⟩] "alice" "pw").1 =
    .userResp "Login successful!" 1 "alice" "a@x" := rfl

example : (loginCore cDemo [⟨1, "alice", "a@x", "pw#h"⟩] "alice" "").1 =
    .jsonErr 400 "Username and password are required" := rfl

example : (loginCore cDemo [⟨1, "alice", "a@x", "pw#h"⟩] "ghost" "x").1 =
    .jsonErr 401 "Invalid username or password" := rfl

namespace P0

/-- First module of the static catalog defined inside the second
`GET /api/modules` handler of part_000 (the local `const modules = [...]`). -/
def staticModule1 : CatalogModule :=
  { id := 1
    title := "Hello Python - Talking to the Computer"
    description := "Learn the basics of Python programming"
    difficulty := "beginner"
    estimated_time := "30 minutes"
    order_index := 1
    content :=
      { story := "🧭 Welcome to Python! Think of Python as teaching a robot to follow your instructions.\n                \n                When you type commands, your robot listens carefully and does exactly what you say.\n                \n                Let's start with the most important command - making your robot speak!"
        concepts :=
          [ { title := "Print Function - Making the Robot Speak"
              explanation := "The print() function is how your Python robot speaks to you. Whatever you put inside the parentheses, your robot will say out loud!"
              exampleCode := "print(\"Hello, world!\")  # Robot says: Hello, world!\nprint(\"I'm learning Python!\")  # Robot says: I'm learning Python!"
              analogy := "Think of print() like telling your robot: 'Say this out loud!'" },
            { title := "Variables - Naming Your Storage Boxes"
              explanation := "Variables are like labeled boxes where you can store information. Once you put something in a box, you can use the label to get it back later."
              exampleCode := "# Create variables (storage boxes)\nname = \"Alex\"\nage = 12\nis_student = True\n\n# Use the variables\nprint(\"Hello, \" + name)\nprint(\"You are \" + str(age) + \" years old\")"
              analogy := "Variables are like name tags on your school supplies - you put a label so you can find it later!" },
            { title := "Data Types - Different Kinds of Information"
              explanation := "Python understands different types of information, just like you understand numbers, words, and true/false questions."
              exampleCode := "# String - for text (words)\nname = \"Sarah\"\nmessage = \"Hello there!\"\n\n# Integer - for whole numbers\nage = 13\nscore = 95\n\n# Float - for decimal numbers\nheight = 1.65\ntemperature = 23.5\n\n# Boolean - for True/False\nis_sunny = True\nis_raining = False"
              analogy := "Data types are like different subjects in school - math uses numbers, English uses words, science uses true/false experiments!" } ]
        exercises :=
          [ { title := "Make Your Robot Greet You"
              description := "Create a program that greets you by name and tells you your age"
              starter_code := "# TODO: Create variables for your name and age\nname = \"Your Name Here\"\nage = 12\n\n# TODO: Make the robot greet you\nprint(\"\")"
              solution := "name = \"Alex\"\nage = 12\n\nprint(\"Hello, \" + name + \"!\")\nprint(\"You are \" + str(age) + \" years old!\")\nprint(\"Nice to meet you!\")"
              hints :=
                [ "Use the print() function to make the robot speak",
                  "Combine text and variables using the + operator",
                  "Don't forget to convert numbers to text using str()" ] },
            { title := "Dog Years Calculator"
              description := "Calculate how old you would be in dog years (1 human year = 7 dog years)"
              starter_code := "# TODO: Calculate dog years\nhuman_age = 12\ndog_years = \n\nprint(\"If you're \" + str(human_age) + \" in human years...\")\nprint(\"You're \" + str(dog_years) + \" in dog years!\")"
              solution := "human_age = 12\ndog_years = human_age * 7\n\nprint(\"If you're \" + str(human_age) + \" in human years...\")\nprint(\"You're \" + str(dog_years) + \" in dog years!\")"
              hints :=
                [ "Multiply human_age by 7 to get dog years",
                  "Make sure to use the multiplication operator *",
                  "Check your math - 12 human years should be 84 dog years!" ] } ]
        quiz := some
          [ { question := "What does the print() function do?"
              options :=
                [ "Makes the computer print on paper",
                  "Displays text on the screen",
                  "Creates a new variable",
                  "Does math calculations" ]
              correct := 1
              explanation := "print() displays text on the screen - it's how your Python robot 'speaks' to you!" },
            { question := "Which of these is a valid variable name?"
              options := [ "my name", "123name", "my_name", "print" ]
              correct := 2
              explanation := "Variable names can't have spaces, can't start with numbers, and can't be Python keywords like 'print'" } ] } }

/-- Second module of the static catalog of part_000.  Its `content` object has
no `quiz` field. -/
def staticModule2 : CatalogModule :=
  { id := 2
    title := "Functions - Teaching the Robot New Tricks"
    description := "Learn to create reusable code with functions"
    difficulty := "beginner"
    estimated_time := "45 minutes"
    order_index := 2
    content :=
      { story := "🎩 Welcome to Functions - where you teach your robot magic tricks!\n                \n                Functions are like recipes. Once you create a recipe (like \"how to make a sandwich\"), you can use it anytime without writing all the steps again.\n                \n                Let's teach your robot some cool tricks!"
        concepts :=
          [ { title := "Creating Functions - Writing Your Recipes"
              explanation := "Functions are blocks of code that you can define once and use many times. They make your code organized and reusable."
              exampleCode := "# Define a function (create a recipe)\ndef greet():\n    print(\"Hello there!\")\n    print(\"Welcome to Python!\")\n\n# Use the function (follow the recipe)\ngreet()\ngreet()  # You can use it multiple times!"
              analogy := "Functions are like dance routines - learn the steps once, then perform them anytime!" },
            { title := "Function Parameters - Customizing Your Recipes"
              explanation := "Parameters let you pass information to functions, making them flexible and customizable."
              exampleCode := "# Function with parameters\ndef greet_person(name):\n    print(\"Hello, \" + name + \"!\")\n    print(\"Nice to meet you!\")\n\n# Use with different names\ngreet_person(\"Alice\")\ngreet_person(\"Bob\")\ngreet_person(\"Charlie\")"
              analogy := "Parameters are like blank spaces in a mad lib - you fill them in differently each time!" },
            { title := "Return Values - Getting Answers Back"
              explanation := "Functions can return values back to you, like a calculator giving you the answer to a math problem."
              exampleCode := "# Function that returns a value\ndef add_numbers(a, b):\n    result = a + b\n    return result\n\n# Use the returned value\nsum = add_numbers(5, 3)\nprint(\"The sum is: \" + str(sum))\n\n# You can use it directly in print\nprint(\"10 + 15 = \" + str(add_numbers(10, 15)))"
              analogy := "Return values are like asking a question and getting an answer - the function does the work and gives you back the result!" } ]
        exercises :=
          [ { title := "Math Helper Functions"
              description := "Create a set of math helper functions for common calculations"
              starter_code := "# TODO: Create math functions\ndef add(a, b):\n    # Return the sum of a and b\n    return\n\ndef multiply(a, b):\n    # Return a multiplied by b\n    return\n\ndef square(x):\n    # Return x squared (x * x)\n    return\n\n# Test your functions\nprint(\"5 + 3 = \" + str(add(5, 3)))\nprint(\"4 * 6 = \" + str(multiply(4, 6)))\nprint(\"7 squared = \" + str(square(7)))"
              solution := "def add(a, b):\n    return a + b\n\ndef multiply(a, b):\n    return a * b\n\ndef square(x):\n    return x * x\n\nprint(\"5 + 3 = \" + str(add(5, 3)))\nprint(\"4 * 6 = \" + str(multiply(4, 6))) \nprint(\"7 squared = \" + str(square(7)))"
              hints :=
                [ "Use the + operator for addition",
                  "Use the * operator for multiplication",
                  "To square a number, multiply it by itself" ] } ]
        quiz := none } }

/-- The local `const modules` array of the second `GET /api/modules` handler of
part_000 (lines 286-517): the fixed two-module catalog.  The trailing comment
in the source ("More modules would be added here...") adds nothing. -/
def staticModules : List CatalogModule := [staticModule1, staticModule2]

end P0

namespace P0

/-- HTTP method of a route registration (`app.get` / `app.post`).  Methods not
used by the API surface are omitted. -/
inductive Method where
  | get
  | post
deriving Repr, DecidableEq, BEq

/-- Express route patterns occurring in part_000: an exact path, the `'*'`
catch-all, and `'/api/modules/:id'` (a fixed prefix plus exactly one more path
segment). -/
inductive Pat where
  | exact (segs : List String)
  | star
  | oneMore (pre : List String)
deriving Repr, DecidableEq

/-- Express path matching for the patterns above.  Paths are split into
segments. -/
def patMatches : Pat → List String → Bool
  | .exact segs, p => segs == p
  | .star, _ => true
  | .oneMore pre, p => p.length == pre.length + 1 && pre.isPrefixOf p

/-- One constructor per route handler of part_000, in source order. -/
inductive HandlerId where
  | hRegister
  | hLogin
  | hLogout
  | hMe
  | hModulesDb
  | hProgressGet
  | hHealth
  | hCatchAll
  | hModulesStatic
  | hModuleById
  | hProgressPost
deriving Repr, DecidableEq

/-- The part_000 route table in registration order (lines 106, 159, 212, 222,
238, 248, 269, 278, 285, 523, 531).  Express dispatches a request to the first
registered route whose method and pattern match, which is what makes the
second `GET /api/modules` handler and the `GET /api/modules/:id` handler
unreachable: both come after `app.get('*')`. -/
def part000Routes : List (Method × Pat × HandlerId) :=
  [ (.post, .exact ["api", "auth", "register"], .hRegister),
    (.post, .exact ["api", "auth", "login"], .hLogin),
    (.post, .exact ["api", "auth", "logout"], .hLogout),
    (.get, .exact ["api", "auth", "me"], .hMe),
    (.get, .exact ["api", "modules"], .hModulesDb),
    (.get, .exact ["api", "progress"], .hProgressGet),
    (.get, .exact ["api", "health"], .hHealth),
    (.get, .star, .hCatchAll),
    (.get, .exact ["api", "modules"], .hModulesStatic),
    (.get, .oneMore ["api", "modules"], .hModuleById),
    (.post, .exact ["api", "progress"], .hProgressPost) ]

/-- First-match route dispatch, as Express performs it. -/
def dispatch (m : Method) (path : List String) : Option HandlerId :=
  (part000Routes.find? (fun rt => rt.1 == m && patMatches rt.2.1 path)).map
    (fun rt => rt.2.2)

/-- The API requests a client can issue against part_000.  Body fields are
strings (`""` models a missing field, matching JS falsiness of `undefined` and
of the empty string); `saveProgress` carries the JSON body of
`POST /api/progress`. -/
inductive Request where
  | register (username email password : String)
  | login (username password : String)
  | logout
  | me
  | listModules
  | getModule (id : Int)
  | getProgress
  | saveProgress (moduleId : Int) (completed : Bool) (score timeSpent : Int)
  | health
deriving Repr, DecidableEq

/-- HTTP method of each request. -/
def reqMethod : Request → Method
  | .register _ _ _ => .post
  | .login _ _ => .post
  | .logout => .post
  | .me => .get
  | .listModules => .get
  | .getModule _ => .get
  | .getProgress => .get
  | .saveProgress _ _ _ _ => .post
  | .health => .get

/-- Path segments of each request. -/
def reqPath : Request → List String
  | .register _ _ _ => ["api", "auth", "register"]
  | .login _ _ => ["api", "auth", "login"]
  | .logout => ["api", "auth", "logout"]
  | .me => ["api", "auth", "me"]
  | .listModules => ["api", "modules"]
  | .getModule i => ["api", "modules", toString i]
  | .getProgress => ["api", "progress"]
  | .saveProgress _ _ _ _ => ["api", "progress"]
  | .health => ["api", "health"]

/-- Server state of part_000: the three SQLite tables with their AUTOINCREMENT
counters, and the session data of the one client being modelled (`none` when
the session stores no `userId`; part_000 session handling keeps `userId` and
`username` together on every write, so they are modelled as a pair). -/
structure State where
  users : List UserRow
  nextUserId : Nat
  progress : List ProgressRow
  nextProgressId : Nat
  modulesTable : List ModuleRow
  sess : Option (Nat × String)
deriving Repr, DecidableEq

/-- State at process start: all tables empty (`CREATE TABLE IF NOT EXISTS` on a
fresh database file), AUTOINCREMENT counters at 1, no authenticated session. -/
def init : State :=
  { users := []
    nextUserId := 1
    progress := []
    nextProgressId := 1
    modulesTable := []
    sess := none }

/-- JS truthiness of `req.session.userId` under the paired session model. -/
def truthySess : Option (Nat × String) → Bool
  | none => false
  | some (uid, _) => uid != 0

/-- Columns of the part_000 `user_progress` table (lines 83-89). -/
def userProgressCols : List String :=
  ["id", "user_id", "module_id", "completed", "last_accessed"]

/-- Columns named by the `INSERT OR REPLACE INTO user_progress` statement of
the `POST /api/progress` handler (lines 538-541). -/
def progressInsertCols : List String :=
  ["user_id", "module_id", "completed", "score", "time_spent"]

/-- `db.run` of the `INSERT OR REPLACE INTO user_progress ...` statement.
SQLite refuses to prepare a statement naming a column the table does not have
("table user_progress has no column named ..."), so the statement errors
whenever `progressInsertCols` is not contained in `userProgressCols` — which is
the case here, `score` and `time_spent` being absent.  The success branch is
therefore dead code; it is written as the append the statement would perform
(the only uniqueness constraint of the table is the rowid primary key, which
the statement does not supply, so OR REPLACE has nothing to replace and the
row values that the table cannot store are dropped; the `last_accessed`
CURRENT_TIMESTAMP default is rendered as 0 since no write ever happens). -/
def insertOrReplaceUserProgress (ps : List ProgressRow) (nextId uid : Nat)
    (moduleId : Int) (completed : Bool) (score timeSpent : Int) :
    Except String (List ProgressRow) :=
  if progressInsertCols.all (fun col => userProgressCols.contains col) then
    Except.ok (ps ++ [{ id := nextId, user_id := uid, module_id := moduleId,
                        completed := completed, last_accessed := 0 }])
  else
    Except.error "table user_progress has no column named score"

/-- `ORDER BY order_index` of the database-backed `GET /api/modules` handler:
insertion sort on the `order_index` column. -/
def orderByOrderIndex (ms : List ModuleRow) : List ModuleRow :=
  let rec insert (m : ModuleRow) : List ModuleRow → List ModuleRow
    | [] => [m]
    | x :: xs => if m.order_index ≤ x.order_index then m :: x :: xs else x :: insert m xs
  match ms with
  | [] => []
  | m :: rest => insert m (orderByOrderIndex rest)

/-- The `JOIN modules m ON up.module_id = m.id` of the `GET /api/progress`
query: each progress row is paired with the title of every module row whose id
matches (an inner join, so a progress row without a matching module row is
dropped). -/
def sqlJoin (ps : List ProgressRow) (ms : List ModuleRow) : List (ProgressRow × String) :=
  match ps with
  | [] => []
  | p :: rest =>
      (ms.filter (fun m => (m.id : Int) == p.module_id)).map (fun m => (p, m.title))
        ++ sqlJoin rest ms

/-- Whether the identifier `modules` resolves in the scope of the
`GET /api/modules/:id` handler (lines 523-528).  It does not: the only binding
named `modules` is the `const modules` local to the second `GET /api/modules`
handler (line 286); part_000 has no top-level binding of that name. -/
def modulesInScopeOfModuleById : Bool := false

/-- Body of the `GET /api/modules/:id` handler.  If `modules` were in scope it
would respond with `res.json(\x7b module: modules.find(m => m.id === moduleId) \x7d)`;
since it is not, evaluating the identifier throws a ReferenceError, which
Express turns into a 500 response (part_000 registered its JSON error
middleware before the routes, so the default Express error handler answers). -/
def moduleByIdBody (moduleId : Int) : Resp :=
  if modulesInScopeOfModuleById then
    .moduleResp (staticModules.find? (fun m => (m.id : Int) == moduleId))
  else
    .defaultError 500

/-- Execution of one part_000 handler on the current state.  Handler and
request constructors are paired the way dispatch pairs them; combinations
dispatch can never produce answer with the Express default 404. -/
def runHandler (c : Crypto) (st : State) : HandlerId → Request → Resp × State
  | .hRegister, .register username email password =>
      match registerCore c st.users st.nextUserId username email password with
      | (resp, some row) =>
          (resp, { st with users := st.users ++ [row], nextUserId := st.nextUserId + 1,
                           sess := some (row.id, row.username) })
      | (resp, none) => (resp, st)
  | .hLogin, .login username password =>
      match loginCore c st.users username password with
      | (resp, some sd) => (resp, { st with sess := some sd })
      | (resp, none) => (resp, st)
  | .hLogout, _ => (.jsonMsg "Logout successful", { st with sess := none })
  | .hMe, _ =>
      match st.sess with
      | some (uid, un) =>
          if uid != 0 then (.meResp uid un, st)
          else (.jsonErr 401 "Not authenticated", st)
      | none => (.jsonErr 401 "Not authenticated", st)
  | .hModulesDb, _ => (.modulesResp (orderByOrderIndex st.modulesTable), st)
  | .hProgressGet, _ =>
      match st.sess with
      | some (uid, _) =>
          if uid != 0 then
            (.progressResp
              (sqlJoin (st.progress.filter (fun p => p.user_id == uid)) st.modulesTable), st)
          else (.jsonErr 401 "Not authenticated", st)
      | none => (.jsonErr 401 "Not authenticated", st)
  | .hHealth, _ => (.healthResp, st)
  | .hCatchAll, _ => (.htmlFile "index.html", st)
  | .hModulesStatic, _ => (.staticModulesResp staticModules, st)
  | .hModuleById, .getModule i => (moduleByIdBody i, st)
  | .hProgressPost, .saveProgress moduleId completed score timeSpent =>
      match st.sess with
      | some (uid, _) =>
          if uid != 0 then
            match insertOrReplaceUserProgress st.progress st.nextProgressId uid
                moduleId completed score timeSpent with
            | .ok ps =>
                (.jsonMsg "Progress saved successfully",
                  { st with progress := ps, nextProgressId := st.nextProgressId + 1 })
            | .error _ => (.jsonErr 500 "Database error", st)
          else (.jsonErr 401 "Not authenticated", st)
      | none => (.jsonErr 401 "Not authenticated", st)
  | _, _ => (.defaultError 404, st)

/-- One request/response cycle of part_000: Express dispatch followed by the
matched handler. -/
def stepReq (c : Crypto) (st : State) (r : Request) : Resp × State :=
  match dispatch (reqMethod r) (reqPath r) with
  | some h => runHandler c st h r
  | none => (.defaultError 404, st)

/-- Sequential processing of a list of requests. -/
def run (c : Crypto) (st : State) : List Request → State
  | [] => st
  | r :: rs => run c (stepReq c st r).2 rs

end P0

example : P0.dispatch .get ["api", "modules"] = some .hModulesDb := rfl
example : P0.dispatch .get ["api", "modules", "999"] = some .hCatchAll := rfl
example : P0.dispatch .get ["api", "auth", "me"] = some .hMe := rfl
example : P0.dispatch .post ["api", "progress"] = some .hProgressPost := rfl
example : P0.stepReq cDemo P0.init .me = (.jsonErr 401 "Not authenticated", P0.init) := rfl

namespace Prod

/-- Data an express-session record can hold for this application: the
(userId, username) pair written by login, or nothing when the record exists
but no user fields were set. -/
def SessData := Option (Nat × String)
deriving instance Repr, DecidableEq for SessData

/-- The express-session store (MemoryStore / Redis): existing session records
keyed by session id, plus a fresh-id counter.  Session ids are opaque random
strings in reality; they are modelled as naturals with `nextSid` standing for
"a fresh id never issued before". -/
structure Store where
  entries : List (Nat × SessData)
  nextSid : Nat
deriving Repr, DecidableEq

/-- Lookup of a session record by id. -/
def findSess : List (Nat × SessData) → Nat → Option SessData
  | [], _ => none
  | e :: rest, k => if e.1 = k then some e.2 else findSess rest k

/-- Store well-formedness: every stored session id was issued before the
fresh-id counter. -/
def wf (s : Store) : Prop := ∀ e ∈ s.entries, e.1 < s.nextSid

/-- Session resolution at the start of a request: a valid incoming cookie
selects its record; otherwise express-session creates a fresh session (a new
id, saved later only if the handler writes to it — `saveUninitialized: false`
in both production variants). -/
def resolveSid (store : Store) (cookie : Option Nat) : Nat × Store :=
  match cookie with
  | some s =>
      if (findSess store.entries s).isSome then (s, store)
      else (store.nextSid, { store with nextSid := store.nextSid + 1 })
  | none => (store.nextSid, { store with nextSid := store.nextSid + 1 })

/-- Write a session record (insert or overwrite). -/
def putSess (es : List (Nat × SessData)) (k : Nat) (v : SessData) : List (Nat × SessData) :=
  (es.filter (fun e => e.1 != k)) ++ [(k, v)]

/-- Remove a session record (`req.session.destroy`). -/
def delSess (es : List (Nat × SessData)) (k : Nat) : List (Nat × SessData) :=
  es.filter (fun e => e.1 != k)

/-- The `POST /api/auth/login` handler of server-production.js (lines 162-212)
with its session effect.  On success it assigns `req.session.userId` and
`req.session.username` directly — there is no `req.session.regenerate` call in
this file — so the request keeps the session id it arrived with.  Returns
(response, store after, session id carried by the response cookie). -/
def loginS (c : Crypto) (users : List UserRow) (store : Store) (cookie : Option Nat)
    (username password : String) : Resp × Store × Nat :=
  let (sid, store₁) := resolveSid store cookie
  match loginCore c users username password with
  | (resp, some sd) =>
      (resp, { store₁ with entries := putSess store₁.entries sid (some sd) }, sid)
  | (resp, none) => (resp, store₁, sid)

/-- The `POST /api/auth/logout` handler of server-production.js (lines
215-222): `req.session.destroy` removes the server-side record and the success
message is returned.  The handler does NOT call `res.clearCookie`; the third
component records whether a clear-cookie directive is sent (always `false`
here).  The store is modelled error-free, so the destroy error branch is not
taken. -/
def logoutP (store : Store) (cookie : Option Nat) : Resp × Store × Bool :=
  let (sid, store₁) := resolveSid store cookie
  (.jsonMsg "Logout successful", { store₁ with entries := delSess store₁.entries sid }, false)

/-- The `GET /api/auth/me` handler of server-production.js (lines 225-236):
401 when `req.session.userId` is not truthy, the session identity otherwise. -/
def meS (store : Store) (cookie : Option Nat) : Resp :=
  let (sid, store₁) := resolveSid store cookie
  match findSess store₁.entries sid with
  | some (some (uid, un)) =>
      if uid != 0 then .meResp uid un else .jsonErr 401 "Not authenticated"
  | _ => .jsonErr 401 "Not authenticated"

end Prod

namespace Railway

/-- The `POST /api/auth/login` handler of app-with-learning.js (lines 928-994).
Identical credential checking, but on success it first calls
`req.session.regenerate` — destroying the current session record and switching
the request to a brand-new session id — and only then stores
userId/username and saves.  The store is modelled error-free, so the
regenerate/save error branches are not taken.  Returns (response, store after,
session id carried by the response cookie). -/
def loginR (c : Crypto) (users : List UserRow) (store : Prod.Store) (cookie : Option Nat)
    (username password : String) : Resp × Prod.Store × Nat :=
  let (sid, store₁) := Prod.resolveSid store cookie
  match loginCore c users username password with
  | (resp, some sd) =>
      let store₂ : Prod.Store :=
        { store₁ with entries := Prod.delSess store₁.entries sid }
      let sid' := store₂.nextSid
      (resp,
        { entries := Prod.putSess store₂.entries sid' (some sd), nextSid := store₂.nextSid + 1 },
        sid')
  | (resp, none) => (resp, store₁, sid)

/-- The `POST /api/auth/logout` handler of app-with-learning.js (lines
997-1012): destroys the server-side record AND calls
`res.clearCookie('codetrain.sid', ...)` — the third component is `true`. -/
def logoutR (store : Prod.Store) (cookie : Option Nat) : Resp × Prod.Store × Bool :=
  let (sid, store₁) := Prod.resolveSid store cookie
  (.jsonMsg "Logout successful",
    { store₁ with entries := Prod.delSess store₁.entries sid }, true)

/-- The `GET /api/auth/me` handler of app-with-learning.js (lines 1015-1029):
same 401 gate as server-production; the extra `req.session.touch()` only
refreshes the expiry and does not change the stored data. -/
def meR (store : Prod.Store) (cookie : Option Nat) : Resp :=
  Prod.meS store cookie

end Railway

example :
    Prod.loginS cDemo [⟨1, "alice", "a@x", "pw#h"⟩] ⟨[(5, some (1, "alice"))], 6⟩
      (some 5) "alice" "pw" =
    (.userResp "Login successful!" 1 "alice" "a@x", ⟨[(5, some (1, "alice"))], 6⟩, 5) := rfl

example :
    (Railway.loginR cDemo [⟨1, "alice", "a@x", "pw#h"⟩] ⟨[(5, some (1, "alice"))], 6⟩
      (some 5) "alice" "pw").2.2 = 6 := rfl

/-- Requests whose handler writes the session identity: register and login set
`req.session.userId`/`username`, logout destroys the session.  No other
part_000 handler touches the session. -/
def P0.isAuthMutating : P0.Request → Bool
  | .register _ _ _ => true
  | .login _ _ => true
  | .logout => true
  | _ => false

theorem P0.stepReq_register (c : Crypto) (st : P0.State) (u e p : String) :
    P0.stepReq c st (.register u e p) = P0.runHandler c st .hRegister (.register u e p) := rfl

theorem P0.stepReq_login (c : Crypto) (st : P0.State) (u p : String) :
    P0.stepReq c st (.login u p) = P0.runHandler c st .hLogin (.login u p) := rfl

theorem P0.stepReq_logout (c : Crypto) (st : P0.State) :
    P0.stepReq c st .logout = P0.runHandler c st .hLogout .logout := rfl

theorem P0.stepReq_me (c : Crypto) (st : P0.State) :
    P0.stepReq c st .me = P0.runHandler c st .hMe .me := rfl

theorem P0.stepReq_listModules (c : Crypto) (st : P0.State) :
    P0.stepReq c st .listModules = P0.runHandler c st .hModulesDb .listModules := rfl

theorem P0.stepReq_getProgress (c : Crypto) (st : P0.State) :
    P0.stepReq c st .getProgress = P0.runHandler c st .hProgressGet .getProgress := rfl

theorem P0.stepReq_saveProgress (c : Crypto) (st : P0.State) (m : Int) (b : Bool) (s t : Int) :
    P0.stepReq c st (.saveProgress m b s t) =
      P0.runHandler c st .hProgressPost (.saveProgress m b s t) := rfl

theorem P0.stepReq_health (c : Crypto) (st : P0.State) :
    P0.stepReq c st .health = P0.runHandler c st .hHealth .health := rfl

/-- `GET /api/modules/:id` requests are captured by the `app.get('*')`
catch-all registered before them. -/
theorem P0.stepReq_getModule (c : Crypto) (st : P0.State) (i : Int) :
    P0.stepReq c st (.getModule i) = P0.runHandler c st .hCatchAll (.getModule i) := by
  have h : P0.dispatch .get ["api", "modules", toString i] = some .hCatchAll := rfl
  simp [P0.stepReq, P0.reqMethod, P0.reqPath, h]

/-- No part_000 handler ever writes to the `modules` table. -/
theorem P0.modulesTable_stepReq (c : Crypto) (st : P0.State) (r : P0.Request) :
    ((P0.stepReq c st r).2).modulesTable = st.modulesTable := by
  cases r <;>
    simp only [P0.stepReq_register, P0.stepReq_login, P0.stepReq_logout, P0.stepReq_me,
      P0.stepReq_listModules, P0.stepReq_getProgress, P0.stepReq_saveProgress,
      P0.stepReq_health, P0.stepReq_getModule, P0.runHandler] <;>
    (repeat' split) <;> rfl

/-- The `modules` table is invariant across any request sequence. -/
theorem P0.modulesTable_run (c : Crypto) (st : P0.State) (rs : List P0.Request) :
    (P0.run c st rs).modulesTable = st.modulesTable := by
  induction rs generalizing st with
  | nil => rfl
  | cons r rs ih => rw [P0.run, ih, P0.modulesTable_stepReq]

/-- Handlers of non-auth requests leave the session untouched. -/
theorem P0.sess_stepReq (c : Crypto) (st : P0.State) (r : P0.Request)
    (h : P0.isAuthMutating r = false) : ((P0.stepReq c st r).2).sess = st.sess := by
  cases r
  case register => simp [P0.isAuthMutating] at h
  case login => simp [P0.isAuthMutating] at h
  case logout => simp [P0.isAuthMutating] at h
  all_goals
    simp only [P0.stepReq_me, P0.stepReq_listModules, P0.stepReq_getProgress,
      P0.stepReq_saveProgress, P0.stepReq_health, P0.stepReq_getModule,
      P0.runHandler] <;> (repeat' split) <;> rfl

/-- The session identity survives any sequence of non-auth requests. -/
theorem P0.sess_run (c : Crypto) (st : P0.State) (rs : List P0.Request)
    (h : ∀ r ∈ rs, P0.isAuthMutating r = false) : (P0.run c st rs).sess = st.sess := by
  induction rs generalizing st with
  | nil => rfl
  | cons r rs ih =>
      rw [P0.run, ih _ (fun x hx => h x (List.mem_cons_of_mem _ hx)),
        P0.sess_stepReq _ _ _ (h r (List.mem_cons_self _ _))]

/-- An inner join with an empty right table is empty. -/
theorem P0.sqlJoin_nil (ps : List ProgressRow) : P0.sqlJoin ps [] = [] := by
  induction ps with
  | nil => rfl
  | cons p rest ih => simp [P0.sqlJoin, ih]

/-- Only the success branch of the login handler produces a `userResp`, and
there it stores exactly the responded (id, username) into the session. -/
theorem loginCore_userResp (c : Crypto) (users : List UserRow) (username password : String)
    (m : String) (i : Nat) (un em : String)
    (h : (loginCore c users username password).1 = .userResp m i un em) :
    (loginCore c users username password).2 = some (i, un) := by
  rcases hE : loginCore c users username password with ⟨r, sd⟩
  rw [hE] at h
  simp only at h
  subst h
  unfold loginCore at hE
  split at hE
  · simp at hE
  · split at hE
    · simp at hE
    · split at hE
      · simp only [Prod.mk.injEq, Resp.userResp.injEq] at hE
        rcases hE with ⟨⟨_, hi, hu, _⟩, hsd⟩
        simp [← hsd, hi, hu]
      · simp at hE

/-- The `POST /api/auth/register` handler of server-production.js (lines
109-159) acting on the users table: on success the new row is appended (the
handler additionally sets the session, irrelevant to the table); on validation
failure or uniqueness violation the table is returned unchanged. -/
def Prod.register (c : Crypto) (users : List UserRow) (nextId : Nat)
    (username email password : String) : Resp × List UserRow :=
  match registerCore c users nextId username email password with
  | (resp, some row) => (resp, users ++ [row])
  | (resp, none) => (resp, users)

/-- State with one registered user "alice" (password hash produced by `cDemo`)
whose session is authenticated; used for concrete evaluations. -/
def P0.stAlice : P0.State :=
  { users := [⟨1, "alice", "a@x", "pw#h"⟩]
    nextUserId := 2
    progress := []
    nextProgressId := 1
    modulesTable := []
    sess := some (1, "alice") }

/-- C1: the claim says two SaveProgress calls for the same (user, module) pair
leave exactly one row holding the second call's values.  On part_000 the
INSERT names the columns `score` and `time_spent`, which the `user_progress`
table created at lines 83-89 does not have, so every authenticated
`POST /api/progress` call answers 500 "Database error" and writes nothing:
after two calls zero rows exist for the pair.  (The table also lacks a
UNIQUE(user_id, module_id) constraint, so even with the columns present the
`INSERT OR REPLACE` would append a second row rather than replace.)  This
theorem evaluates the code at the failing input. -/
theorem c1_saveProgress_bug :
    P0.stepReq cDemo P0.stAlice (.saveProgress 1 true 85 30) =
      (.jsonErr 500 "Database error", P0.stAlice) ∧
    P0.stepReq cDemo P0.stAlice (.saveProgress 1 true 100 60) =
      (.jsonErr 500 "Database error", P0.stAlice) ∧
    (P0.run cDemo P0.stAlice
        [.saveProgress 1 true 85 30, .saveProgress 1 true 100 60]).progress = [] ∧
    P0.progressInsertCols.all (fun col => P0.userProgressCols.contains col) = false :=
  ⟨rfl, rfl, rfl, rfl⟩

/-- C2 (amended): for a registered user `u` and a nonempty submitted password
`p` that does not match the stored hash, and for a nonempty username `v` with
no user row and any nonempty password `q`, the two login runs both answer 401
with the identical "Invalid username or password" body — the client cannot
distinguish wrong-password from missing-user.  (Nonemptiness is required: an
empty field short-circuits to a 400 validation error on both sides.) -/
theorem c2_login_no_enumeration (c : Crypto) (users : List UserRow) (u : UserRow)
    (p v q : String)
    (hu : u.username ≠ "") (hp : p ≠ "") (hv : v ≠ "") (hq : q ≠ "")
    (hfind : selectUserByUsername users u.username = some u)
    (hwrong : c.verify p u.password_hash = false)
    (hnone : selectUserByUsername users v = none) :
    (loginCore c users u.username p).1 = .jsonErr 401 "Invalid username or password" ∧
    (loginCore c users v q).1 = .jsonErr 401 "Invalid username or password" := by
  constructor
  · unfold loginCore
    rw [if_neg (by simp [hu, hp]), hfind]
    simp [hwrong]
  · unfold loginCore
    rw [if_neg (by simp [hv, hq]), hnone]

/-- Witness for C2 at a concrete table: wrong password for "alice" and a login
for the unregistered "ghost" both answer the identical 401 body. -/
theorem c2_login_no_enumeration_witness :
    ((loginCore cDemo [⟨1, "alice", "a@x", "pw#h"⟩] "alice" "wrong").1 =
        .jsonErr 401 "Invalid username or password" ∧
      (loginCore cDemo [⟨1, "alice", "a@x", "pw#h"⟩] "ghost" "pw").1 =
        .jsonErr 401 "Invalid username or password") :=
  c2_login_no_enumeration cDemo [⟨1, "alice", "a@x", "pw#h"⟩] ⟨1, "alice", "a@x", "pw#h"⟩
    "wrong" "ghost" "pw" (by decide) (by decide) (by decide) (by decide)
    (by decide) (by decide) (by decide)

/-- C2 counterexample: the claim as stated quantifies over every password that
does not match the stored hash.  The empty password does not match the hash,
yet login with it answers 400 "Username and password are required", not 401 —
and differs from a nonexistent-user login with a nonempty password, which
answers 401. -/
theorem c2_counterexample :
    cDemo.verify "" "pw#h" = false ∧
    (loginCore cDemo [⟨1, "alice", "a@x", "pw#h"⟩] "alice" "").1 =
      .jsonErr 400 "Username and password are required" ∧
    (loginCore cDemo [⟨1, "alice", "a@x", "pw#h"⟩] "ghost" "x").1 =
      .jsonErr 401 "Invalid username or password" :=
  ⟨rfl, rfl, rfl⟩

/-- C3: a second Register call with an already-present username (nonempty
email, password of length at least 6) answers 400 "Username or email already
exists" — the duplicate-conflict message, distinct from the generic 500
"Database error" — and leaves the users table unchanged. -/
theorem c3_register_duplicate (c : Crypto) (users : List UserRow) (nextId : Nat)
    (username email password : String)
    (hu : username ≠ "") (he : email ≠ "") (hlen : 6 ≤ password.length)
    (w : UserRow) (hw : w ∈ users) (hwname : w.username = username) :
    Prod.register c users nextId username email password =
      (.jsonErr 400 "Username or email already exists", users) := by
  have hpw : password ≠ "" := by
    intro hp
    rw [hp] at hlen
    simp at hlen
  unfold Prod.register registerCore
  rw [if_neg (by simp [hu, he, hpw])]
  rw [if_neg (by omega)]
  rw [if_pos (by simp only [List.any_eq_true]; exact ⟨w, hw, by simp [hwname]⟩)]

/-- Witness for C3: registering "alice" again on a table already holding
"alice" fails with the duplicate-conflict error and the table is unchanged. -/
theorem c3_register_duplicate_witness :
    Prod.register cDemo [⟨1, "alice", "a@x", "pw#h"⟩] 2 "alice" "other@x" "secret1" =
      (.jsonErr 400 "Username or email already exists", [⟨1, "alice", "a@x", "pw#h"⟩]) :=
  c3_register_duplicate cDemo [⟨1, "alice", "a@x", "pw#h"⟩] 2 "alice" "other@x" "secret1"
    (by decide) (by decide) (by decide) ⟨1, "alice", "a@x", "pw#h"⟩ (by decide) (by decide)

/-- C4: the claim says GetModule(id) answers not-found for unknown ids and
never a server error.  On part_000 a `GET /api/modules/999` request is
captured by the `app.get('*')` SPA fallback registered before the
`/api/modules/:id` route, answering 200 with the index.html document — not a
not-found indication; and the `/api/modules/:id` handler itself, were it
reachable, references the identifier `modules` which is not in its scope, so
it throws a ReferenceError that Express answers with a 500 server error.
This theorem evaluates the code at the failing input 999, an id not in the
catalog. -/
theorem c4_getModule_bug :
    P0.dispatch .get ["api", "modules", "999"] = some .hCatchAll ∧
    P0.stepReq cDemo P0.init (.getModule 999) = (.htmlFile "index.html", P0.init) ∧
    P0.moduleByIdBody 999 = .defaultError 500 ∧
    (P0.staticModules.find? (fun m => (m.id : Int) == 999)).isNone = true :=
  ⟨rfl, rfl, rfl, rfl⟩

/-- C5: with no authenticated session (`req.session.userId` not truthy),
CurrentUser, GetProgress and SaveProgress each answer 401 "Not authenticated",
the response carries no user data, the state — in particular the
`user_progress` table — is unchanged, and nothing is written. -/
theorem c5_unauthenticated (c : Crypto) (st : P0.State)
    (h : P0.truthySess st.sess = false) :
    P0.stepReq c st .me = (.jsonErr 401 "Not authenticated", st) ∧
    P0.stepReq c st .getProgress = (.jsonErr 401 "Not authenticated", st) ∧
    ∀ (m : Int) (b : Bool) (s t : Int),
      P0.stepReq c st (.saveProgress m b s t) = (.jsonErr 401 "Not authenticated", st) := by
  rcases hs : st.sess with _ | ⟨uid, un⟩
  · refine ⟨?_, ?_, fun m b s t => ?_⟩ <;>
      simp [P0.stepReq_me, P0.stepReq_getProgress, P0.stepReq_saveProgress,
        P0.runHandler, hs]
  · rw [hs] at h
    simp only [P0.truthySess, bne_iff_ne, ne_eq, Decidable.not_not] at h
    refine ⟨?_, ?_, fun m b s t => ?_⟩ <;>
      simp [P0.stepReq_me, P0.stepReq_getProgress, P0.stepReq_saveProgress,
        P0.runHandler, hs, h]

/-- Witness for C5 at the start state, whose session holds no user. -/
theorem c5_unauthenticated_witness :
    P0.truthySess P0.init.sess = false ∧
    P0.stepReq cDemo P0.init .me = (.jsonErr 401 "Not authenticated", P0.init) ∧
    P0.stepReq cDemo P0.init .getProgress = (.jsonErr 401 "Not authenticated", P0.init) ∧
    P0.stepReq cDemo P0.init (.saveProgress 1 true 100 60) =
      (.jsonErr 401 "Not authenticated", P0.init) :=
  ⟨by decide, (c5_unauthenticated cDemo P0.init (by decide)).1,
    (c5_unauthenticated cDemo P0.init (by decide)).2.1,
    (c5_unauthenticated cDemo P0.init (by decide)).2.2 1 true 100 60⟩

/-- C7 counterexample: GET /api/modules is dispatched to the first-registered,
database-backed handler, which at process start (and, by
`c7_listModules_always_empty`, forever) answers with zero module rows — while
the fixed catalog defined at process start holds two modules.  The response
does not carry the catalog, as summaries or otherwise. -/
theorem c7_counterexample :
    P0.dispatch .get ["api", "modules"] = some .hModulesDb ∧
    P0.stepReq cDemo P0.init .listModules = (.modulesResp [], P0.init) ∧
    P0.staticModules.length = 2 :=
  ⟨rfl, rfl, rfl⟩

/-- C7 (amended): ListModules is served by the database-backed handler
registered first (line 238); it returns the rows of the `modules` table
ordered by order_index, and since no code path ever inserts into that table,
every call — regardless of caller or prior requests — answers with the empty
module list.  The static two-module catalog handler (line 285) is shadowed by
the catch-all and unreachable. -/
theorem c7_listModules_always_empty (c : Crypto) (reqs : List P0.Request) :
    P0.stepReq c (P0.run c P0.init reqs) .listModules =
      (.modulesResp [], P0.run c P0.init reqs) := by
  have hmt : (P0.run c P0.init reqs).modulesTable = [] :=
    P0.modulesTable_run c P0.init reqs
  rw [P0.stepReq_listModules]
  simp [P0.runHandler, hmt, P0.orderByOrderIndex]

/-- C10: in the database-backed progress variant (part_000), GetProgress
answers the empty progress list for every authenticated session in every
reachable state: the query inner-joins `user_progress` with the `modules`
table, which is created but never populated.  (The "after a successful
SaveProgress" reading is subsumed: the result is empty whatever
`user_progress` holds — and on this variant SaveProgress in fact never
succeeds, see `c1_saveProgress_bug`.) -/
theorem c10_getProgress_empty (c : Crypto) (reqs : List P0.Request)
    (h : P0.truthySess (P0.run c P0.init reqs).sess = true) :
    P0.stepReq c (P0.run c P0.init reqs) .getProgress =
      (.progressResp [], P0.run c P0.init reqs) := by
  have hmt : (P0.run c P0.init reqs).modulesTable = [] :=
    P0.modulesTable_run c P0.init reqs
  rw [P0.stepReq_getProgress]
  rcases hs : (P0.run c P0.init reqs).sess with _ | ⟨uid, un⟩
  · rw [hs] at h
    simp [P0.truthySess] at h
  · rw [hs] at h
    simp only [P0.truthySess] at h
    simp [P0.runHandler, hs, h, hmt, P0.sqlJoin_nil]

/-- Witness for C10: directly after registering (hence authenticated),
GetProgress answers the empty list. -/
theorem c10_getProgress_empty_witness :
    P0.truthySess (P0.run cDemo P0.init [.register "alice" "a@x" "secret1"]).sess = true ∧
    P0.stepReq cDemo (P0.run cDemo P0.init [.register "alice" "a@x" "secret1"]) .getProgress =
      (.progressResp [], P0.run cDemo P0.init [.register "alice" "a@x" "secret1"]) :=
  ⟨by decide, c10_getProgress_empty cDemo [.register "alice" "a@x" "secret1"] (by decide)⟩

/-- C9 counterexample: the claim says that after a successful login no
intermediate request other than logout (or expiry) changes what CurrentUser
returns.  But a successful registration between login and CurrentUser
overwrites the session identity: after login as "alice" and a register of
"bob", CurrentUser answers "bob". -/
theorem c9_counterexample :
    (P0.stepReq cDemo P0.stAlice (.login "alice" "pw")).1 =
      .userResp "Login successful!" 1 "alice" "a@x" ∧
    (P0.stepReq cDemo
        (P0.run cDemo P0.stAlice [.login "alice" "pw", .register "bob" "b@x" "secret7"])
        .me).1 = .meResp 2 "bob" ∧
    ("bob" : String) ≠ "alice" :=
  ⟨rfl, rfl, by decide⟩

/-- C9 (amended): after a successful login as a user with id `uid` and
username `u`, CurrentUser answers exactly (uid, u) across any sequence of
further requests none of which is a login, register or logout — those three
being the only handlers that write the session identity (session expiry is a
store concern outside part_000's handlers). -/
theorem c9_me_stable (c : Crypto) (st : P0.State) (u p : String) (uid : Nat) (em : String)
    (huid : uid ≠ 0)
    (hresp : (P0.stepReq c st (.login u p)).1 = .userResp "Login successful!" uid u em)
    (reqs : List P0.Request) (hna : ∀ r ∈ reqs, P0.isAuthMutating r = false) :
    (P0.stepReq c (P0.run c (P0.stepReq c st (.login u p)).2 reqs) .me).1 =
      .meResp uid u := by
  have hfst : (P0.runHandler c st .hLogin (.login u p)).1 = (loginCore c st.users u p).1 := by
    unfold P0.runHandler
    rcases hL : loginCore c st.users u p with ⟨r, _ | sd⟩ <;> simp [hL]
  rw [P0.stepReq_login] at hresp
  rw [hfst] at hresp
  have hsd := loginCore_userResp c st.users u p "Login successful!" uid u em hresp
  have hsess : ((P0.stepReq c st (.login u p)).2).sess = some (uid, u) := by
    rw [P0.stepReq_login]
    unfold P0.runHandler
    rcases hL : loginCore c st.users u p with ⟨r, _ | sd⟩
    · rw [hL] at hsd
      simp at hsd
    · rw [hL] at hsd
      simp only [Option.some.injEq] at hsd
      simp [hL, hsd]
  have hrun : (P0.run c (P0.stepReq c st (.login u p)).2 reqs).sess = some (uid, u) := by
    rw [P0.sess_run _ _ _ hna, hsess]
  rw [P0.stepReq_me]
  simp [P0.runHandler, hrun, huid]

/-- Witness for C9 at a concrete trace: login as "alice", then CurrentUser and
a health check (neither writes the session), then CurrentUser still answers
"alice". -/
theorem c9_me_stable_witness :
    (1 : Nat) ≠ 0 ∧
    (P0.stepReq cDemo P0.stAlice (.login "alice" "pw")).1 =
      .userResp "Login successful!" 1 "alice" "a@x" ∧
    (∀ r ∈ ([.me, .health] : List P0.Request), P0.isAuthMutating r = false) ∧
    (P0.stepReq cDemo
        (P0.run cDemo (P0.stepReq cDemo P0.stAlice (.login "alice" "pw")).2 [.me, .health])
        .me).1 = .meResp 1 "alice" :=
  ⟨by decide, by decide, by decide,
    c9_me_stable cDemo P0.stAlice "alice" "pw" 1 "a@x" (by decide) (by decide)
      [.me, .health] (by decide)⟩

theorem Prod.findSess_delSess_self (es : List (Nat × Prod.SessData)) (k : Nat) :
    Prod.findSess (Prod.delSess es k) k = none := by
  induction es with
  | nil => rfl
  | cons e rest ih =>
      simp only [Prod.delSess, List.filter_cons] at ih ⊢
      by_cases hek : e.1 = k
      · rw [if_neg (by simp [hek])]
        exact ih
      · rw [if_pos (by simp [hek])]
        unfold Prod.findSess
        rw [if_neg hek]
        exact ih

theorem Prod.findSess_none_of_lt (es : List (Nat × Prod.SessData)) (n : Nat)
    (h : ∀ e ∈ es, e.1 < n) : Prod.findSess es n = none := by
  induction es with
  | nil => rfl
  | cons e rest ih =>
      unfold Prod.findSess
      rw [if_neg (by have := h e (List.mem_cons_self _ _); omega)]
      exact ih fun x hx => h x (List.mem_cons_of_mem _ hx)

theorem Prod.findSess_filter_none (es : List (Nat × Prod.SessData))
    (q : Nat × Prod.SessData → Bool) (k : Nat) (h : Prod.findSess es k = none) :
    Prod.findSess (es.filter q) k = none := by
  induction es with
  | nil => rfl
  | cons e rest ih =>
      unfold Prod.findSess at h
      by_cases hek : e.1 = k
      · rw [if_pos hek] at h
        exact absurd h (by simp)
      · rw [if_neg hek] at h
        rw [List.filter_cons]
        by_cases hq : q e = true
        · rw [if_pos hq]
          unfold Prod.findSess
          rw [if_neg hek]
          exact ih h
        · rw [if_neg hq]
          exact ih h

theorem Prod.mem_of_findSess (es : List (Nat × Prod.SessData)) (k : Nat)
    (h : (Prod.findSess es k).isSome = true) : ∃ e ∈ es, e.1 = k := by
  induction es with
  | nil => simp [Prod.findSess] at h
  | cons e rest ih =>
      unfold Prod.findSess at h
      by_cases hek : e.1 = k
      · exact ⟨e, List.mem_cons_self _ _, hek⟩
      · rw [if_neg hek] at h
        obtain ⟨x, hx, hxk⟩ := ih h
        exact ⟨x, List.mem_cons_of_mem _ hx, hxk⟩

/-- After a session destroy the record is gone; a CurrentUser request carrying
the old cookie resolves to a fresh empty session and is answered 401. -/
theorem Prod.meS_of_none (store : Prod.Store) (s : Nat)
    (hnone : Prod.findSess store.entries s = none)
    (hwf : Prod.wf store) :
    Prod.meS store (some s) = .jsonErr 401 "Not authenticated" := by
  unfold Prod.meS Prod.resolveSid
  simp [hnone, Prod.findSess_none_of_lt store.entries store.nextSid hwf]

/-- C6 counterexample: in server-production.js a successful login leaves the
session identifier unchanged — the request arrives with valid session id 5 and
the response carries session id 5 — because that handler assigns
`req.session.userId` directly without calling `req.session.regenerate`. -/
theorem c6_counterexample :
    (Prod.loginS cDemo [⟨1, "alice", "a@x", "pw#h"⟩] ⟨[(5, some (1, "alice"))], 6⟩
        (some 5) "alice" "pw").1 = .userResp "Login successful!" 1 "alice" "a@x" ∧
    (Prod.loginS cDemo [⟨1, "alice", "a@x", "pw#h"⟩] ⟨[(5, some (1, "alice"))], 6⟩
        (some 5) "alice" "pw").2.2 = 5 :=
  ⟨rfl, rfl⟩

/-- C6 (amended): in the Railway variant (app-with-learning.js), whose login
handler calls `req.session.regenerate` before storing the identity, every
successful login on a request arriving with a valid session id answers with a
different session id. -/
theorem c6_regenerated (c : Crypto) (users : List UserRow) (store : Prod.Store) (s : Nat)
    (hwf : Prod.wf store) (hvalid : (Prod.findSess store.entries s).isSome = true)
    (username password m : String) (uid : Nat) (un em : String)
    (hsucc : (loginCore c users username password).1 = .userResp m uid un em) :
    (Railway.loginR c users store (some s) username password).2.2 ≠ s := by
  obtain ⟨e, he, hek⟩ := Prod.mem_of_findSess store.entries s hvalid
  have hlt : s < store.nextSid := hek ▸ hwf e he
  have hsd := loginCore_userResp c users username password m uid un em hsucc
  rcases hL : loginCore c users username password with ⟨r, sd⟩
  rw [hL] at hsd
  simp only at hsd
  subst hsd
  unfold Railway.loginR Prod.resolveSid
  rw [hL]
  simp [hvalid]
  omega

/-- Witness for C6 at a concrete store and user table. -/
theorem c6_regenerated_witness :
    Prod.wf ⟨[(5, some (1, "alice"))], 6⟩ ∧
    (Prod.findSess [(5, some (1, "alice"))] 5).isSome = true ∧
    (loginCore cDemo [⟨1, "alice", "a@x", "pw#h"⟩] "alice" "pw").1 =
      .userResp "Login successful!" 1 "alice" "a@x" ∧
    (Railway.loginR cDemo [⟨1, "alice", "a@x", "pw#h"⟩] ⟨[(5, some (1, "alice"))], 6⟩
        (some 5) "alice" "pw").2.2 ≠ 5 :=
  ⟨by unfold Prod.wf; decide, by decide, by decide,
    c6_regenerated cDemo [⟨1, "alice", "a@x", "pw#h"⟩] ⟨[(5, some (1, "alice"))], 6⟩ 5
      (by unfold Prod.wf; decide) (by decide) "alice" "pw" "Login successful!" 1 "alice" "a@x"
      (by decide)⟩

/-- C8 counterexample: the server-production.js logout on a live session
destroys the record but sends no clear-cookie directive (the handler has no
`res.clearCookie` call), so "every Logout call ... clears the client cookie"
fails on this variant. -/
theorem c8_counterexample :
    Prod.logoutP ⟨[(5, some (1, "alice"))], 6⟩ (some 5) =
      (.jsonMsg "Logout successful", ⟨[], 6⟩, false) :=
  rfl

/-- C8 (amended): every logout destroys the server-side session record, so a
subsequent CurrentUser request carrying the old cookie is answered 401 in both
variants; the Railway logout additionally clears the client cookie
(`res.clearCookie('codetrain.sid', ...)`), while the server-production logout
does not. -/
theorem c8_logout_destroys (store : Prod.Store) (s : Nat) (hwf : Prod.wf store) :
    Prod.findSess ((Prod.logoutP store (some s)).2.1).entries s = none ∧
    Prod.meS (Prod.logoutP store (some s)).2.1 (some s) = .jsonErr 401 "Not authenticated" ∧
    (Prod.logoutP store (some s)).2.2 = false ∧
    Prod.findSess ((Railway.logoutR store (some s)).2.1).entries s = none ∧
    Railway.meR (Railway.logoutR store (some s)).2.1 (some s) =
      .jsonErr 401 "Not authenticated" ∧
    (Railway.logoutR store (some s)).2.2 = true := by
  by_cases hv : (Prod.findSess store.entries s).isSome = true
  · have hres : Prod.resolveSid store (some s) = (s, store) := by
      unfold Prod.resolveSid
      simp [hv]
    have hP : Prod.logoutP store (some s) =
        (.jsonMsg "Logout successful",
          { store with entries := Prod.delSess store.entries s }, false) := by
      unfold Prod.logoutP
      rw [hres]
    have hR : Railway.logoutR store (some s) =
        (.jsonMsg "Logout successful",
          { store with entries := Prod.delSess store.entries s }, true) := by
      unfold Railway.logoutR
      rw [hres]
    have hgone : Prod.findSess (Prod.delSess store.entries s) s = none :=
      Prod.findSess_delSess_self store.entries s
    have hwf' : Prod.wf { store with entries := Prod.delSess store.entries s } := by
      intro e he
      exact hwf e (List.mem_of_mem_filter he)
    rw [hP, hR]
    exact ⟨hgone, Prod.meS_of_none _ s hgone hwf', rfl, hgone,
      Prod.meS_of_none _ s hgone hwf', rfl⟩
  · have hnone : Prod.findSess store.entries s = none := by
      rcases hfe : Prod.findSess store.entries s with _ | v
      · rfl
      · rw [hfe] at hv
        simp at hv
    have hres : Prod.resolveSid store (some s) =
        (store.nextSid, { store with nextSid := store.nextSid + 1 }) := by
      unfold Prod.resolveSid
      simp [hnone]
    have hP : Prod.logoutP store (some s) =
        (.jsonMsg "Logout successful",
          { entries := Prod.delSess store.entries store.nextSid,
            nextSid := store.nextSid + 1 }, false) := by
      unfold Prod.logoutP
      rw [hres]
    have hR : Railway.logoutR store (some s) =
        (.jsonMsg "Logout successful",
          { entries := Prod.delSess store.entries store.nextSid,
            nextSid := store.nextSid + 1 }, true) := by
      unfold Railway.logoutR
      rw [hres]
    have hgone : Prod.findSess (Prod.delSess store.entries store.nextSid) s = none :=
      Prod.findSess_filter_none _ _ s hnone
    have hwf' : Prod.wf ⟨Prod.delSess store.entries store.nextSid, store.nextSid + 1⟩ := by
      intro e he
      have := hwf e (List.mem_of_mem_filter he)
      show e.1 < store.nextSid + 1
      omega
    rw [hP, hR]
    exact ⟨hgone, Prod.meS_of_none _ s hgone hwf', rfl, hgone,
      Prod.meS_of_none _ s hgone hwf', rfl⟩

/-- Witness for C8 on a concrete store holding a live session. -/
theorem c8_logout_destroys_witness :
    Prod.wf ⟨[(5, some (1, "alice"))], 6⟩ ∧
    (Prod.findSess ((Prod.logoutP ⟨[(5, some (1, "alice"))], 6⟩ (some 5)).2.1).entries 5 = none ∧
      Prod.meS (Prod.logoutP ⟨[(5, some (1, "alice"))], 6⟩ (some 5)).2.1 (some 5) =
        .jsonErr 401 "Not authenticated" ∧
      (Prod.logoutP ⟨[(5, some (1, "alice"))], 6⟩ (some 5)).2.2 = false ∧
      Prod.findSess ((Railway.logoutR ⟨[(5, some (1, "alice"))], 6⟩ (some 5)).2.1).entries 5 = none ∧
      Railway.meR (Railway.logoutR ⟨[(5, some (1, "alice"))], 6⟩ (some 5)).2.1 (some 5) =
        .jsonErr 401 "Not authenticated" ∧
      (Railway.logoutR ⟨[(5, some (1, "alice"))], 6⟩ (some 5)).2.2 = true) :=
  ⟨by unfold Prod.wf; decide,
    c8_logout_destroys ⟨[(5, some (1, "alice"))], 6⟩ 5 (by unfold Prod.wf; decide)⟩
